import Mathlib

/-!
Verification development for the three-stage multi-agent analysis pipeline
in `streamlit_app.py` (research → analysis → synthesis with DOCX export).

The Python source is shallowly embedded below:
pure prompt-template functions become Lean string functions, the LLM calls
performed by `Crew.kickoff` are abstracted as an oracle
`Stage → String → Except String String` (an `Except.error` models a raised
Python exception, an `Except.ok` models the text returned by the call), and
the word-processor library invoked by `create_docx_bytes` is modelled at the
granularity of the formatter method calls (`add_header`,
`add_executive_summary_box`, `add_section`), which is the level the spec
talks about.  The pipeline result additionally records the trace of stage
calls that were attempted, so that call-count properties can be stated.
-/

/-- The three fixed stages of the pipeline, in their source order:
Phase 1 research agent, Phase 2 analysis agent, Phase 3 orchestrator
(synthesis) agent. -/
inductive Stage where
  | research
  | analysis
  | synthesis
deriving DecidableEq

/-- Substring index search: index of the first occurrence of `pat` in `s`,
`none` when absent.  Models Python `str.find` (which the source only calls
under an `in` guard, so the `none` case is never hit there). -/
def findSubstrIdx (pat : List Char) : List Char → Option Nat
  | [] => if pat.isPrefixOf ([] : List Char) then some 0 else none
  | c :: t =>
    if pat.isPrefixOf (c :: t) then some 0
    else (findSubstrIdx pat t).map (· + 1)

/-- Boolean substring containment, modelling the Python `pat in s` test on
strings. -/
def strContains (s pat : String) : Bool :=
  (findSubstrIdx pat.data s.data).isSome

/-- The whitespace characters stripped by Python `str.strip`. -/
def pyWhitespace : List Char :=
  [' ', '\t', '\n', '\r', '\x0b', '\x0c']

/-- Python `str.strip` on the character list: drop whitespace from both
ends. -/
def pyStripList (l : List Char) : List Char :=
  ((l.dropWhile (· ∈ pyWhitespace)).reverse.dropWhile (· ∈ pyWhitespace)).reverse

/-- Python `str.strip`. -/
def pyStrip (s : String) : String :=
  String.mk (pyStripList s.data)

/-- Uppercase one character (ASCII range), modelling Python `str.upper`
character-wise. -/
def pyUpperChar (c : Char) : Char :=
  if 97 ≤ c.toNat ∧ c.toNat ≤ 122 then Char.ofNat (c.toNat - 32) else c

/-- Lowercase one character (ASCII range), modelling Python `str.lower`
character-wise. -/
def pyLowerChar (c : Char) : Char :=
  if 65 ≤ c.toNat ∧ c.toNat ≤ 90 then Char.ofNat (c.toNat + 32) else c

/-- Python `str.upper` (character-wise, ASCII). -/
def pyUpper (s : String) : String :=
  String.mk (s.data.map pyUpperChar)

/-- Python `str.lower` (character-wise, ASCII). -/
def pyLower (s : String) : String :=
  String.mk (s.data.map pyLowerChar)

/-- Split a character list at every occurrence of `sep`; the accumulator
holds the current field reversed.  Models Python `str.split` with a
one-character separator (so `split` of the empty string is `[""]`, and a
trailing separator yields a trailing empty field). -/
def splitOnCharAux (sep : Char) : List Char → List Char → List (List Char)
  | [], acc => [acc.reverse]
  | c :: t, acc =>
    if c = sep then acc.reverse :: splitOnCharAux sep t []
    else splitOnCharAux sep t (c :: acc)

/-- Python `s.split(sep)` for a one-character separator. -/
def pySplitChar (sep : Char) (s : String) : List String :=
  (splitOnCharAux sep s.data []).map String.mk

/-- Python `str.startswith`. -/
def pyStartsWith (s pre : String) : Bool :=
  pre.data.isPrefixOf s.data

/-- Python `sep.join(xs)`. -/
def pyJoin (sep : String) : List String → String
  | [] => ""
  | [x] => x
  | x :: xs => x ++ sep ++ pyJoin sep xs

/-- Spec-side predicate used only to state claim C3: a character is
printable in the ASCII sense (codepoint between 32 and 126).  The source
contains no printable-character check at all; this predicate lets the
counterexample exhibit a concretely non-printable query character. -/
def isPrintableChar (c : Char) : Bool :=
  decide (32 ≤ c.toNat ∧ c.toNat ≤ 126)

/-- Configuration produced by `get_groq_llm` (source lines 71-78): a single
`LLM` object with the fixed model name, the supplied key, `max_tokens=1000`
and `temperature=0.1` (represented as the rational 1/10). -/
structure LLMConfig where
  model : String
  api_key : String
  max_tokens : Nat
  temperature : ℚ

/-- Embedding of `get_groq_llm` (source lines 71-78). -/
def get_groq_llm (api_key : String) : LLMConfig :=
  { model := "groq/llama-3.1-8b-instant"
    api_key := api_key
    max_tokens := 1000
    temperature := 1 / 10 }

/-- Configuration of one CrewAI `Agent` as constructed in `create_agents`
(source lines 204-261). -/
structure AgentConfig where
  role : String
  goal : String
  backstory : String
  verbose : Bool
  allow_delegation : Bool
  llm : LLMConfig
  max_iter : Nat
  max_rpm : Nat

/-- Embedding of `create_agents` (source lines 204-261): the research,
analysis and orchestrator agents, all three sharing the single
`get_groq_llm api_key` configuration. -/
def create_agents (api_key : String) : AgentConfig × AgentConfig × AgentConfig :=
  ({ role := "Senior Research Specialist"
     goal := "Conduct comprehensive research using available knowledge and provide structured findings"
     backstory := "You are an expert researcher with vast knowledge across multiple domains.\n        You excel at analyzing questions, breaking them down into key components, and providing\n        comprehensive information based on your extensive knowledge base. You organize findings\n        clearly with proper sections and provide valuable context and insights."
     verbose := false
     allow_delegation := false
     llm := get_groq_llm api_key
     max_iter := 2
     max_rpm := 10 },
   { role := "Senior Data Analyst and Strategic Advisor"
     goal := "Perform comprehensive analysis and provide actionable insights and recommendations"
     backstory := "You are a world-class analyst with expertise in:\n        - Statistical analysis and trend identification\n        - Pattern recognition and anomaly detection\n        - Financial analysis and risk assessment\n        - Strategic thinking and decision support\n        - Predictive analysis and forecasting\n        - Text analytics and sentiment analysis\n        You synthesize information into clear, actionable insights and strategic recommendations."
     verbose := false
     allow_delegation := false
     llm := get_groq_llm api_key
     max_iter := 2
     max_rpm := 10 },
   { role := "Chief Orchestrator and Synthesis Expert"
     goal := "Coordinate workflows and synthesize comprehensive executive-level reports"
     backstory := "You are a master coordinator and executive advisor who excels at:\n        - Managing complex multi-step analyses\n        - Synthesizing diverse information sources\n        - Creating executive-level summaries and reports\n        - Providing strategic recommendations and roadmaps\n        - Ensuring comprehensive coverage of all aspects\n        - Risk assessment and implementation planning\n        You deliver clear, well-structured, actionable final reports suitable for C-level executives."
     verbose := false
     allow_delegation := false
     llm := get_groq_llm api_key
     max_iter := 2
     max_rpm := 10 })

/-- Constant part of the research task description before the embedded
query (source lines 264-296, f-string). -/
def researchTaskPart1 : String :=
  "\n        Conduct comprehensive research and analysis on: \""

/-- Constant part of the research task description after the embedded
query (source lines 264-296, f-string). -/
def researchTaskPart2 : String :=
  "\"\n\n        Your research must include the following structured sections:\n\n        1. KEY FINDINGS:\n        - Most important facts and current information\n        - Critical statistics and quantitative data\n        - Recent developments and updates\n\n        2. CONTEXTUAL BACKGROUND:\n        - Relevant historical context\n        - Industry or domain background\n        - Important stakeholders and players\n\n        3. MULTIPLE PERSPECTIVES:\n        - Different viewpoints and opinions\n        - Contrasting approaches or solutions\n        - Expert opinions and insights\n\n        4. CURRENT TRENDS:\n        - Latest developments and movements\n        - Emerging patterns and shifts\n        - Future indicators and signals\n\n        Structure your response with clear section headers for professional document formatting.\n        Keep each section concise but comprehensive to manage token limits effectively.\n        "

/-- Embedding of `create_research_task` (source lines 264-296): the task
description f-string with the user query interpolated. -/
def create_research_task_description (user_query : String) : String :=
  researchTaskPart1 ++ user_query ++ researchTaskPart2

/-- The optional research-context block of the analysis task description
(source line 299): empty when `research_results` is falsy (the empty
string), otherwise a fixed header followed by the research text. -/
def analysisResearchContext (research_results : String) : String :=
  if research_results = "" then ""
  else "\n\nRESEARCH CONTEXT:\n" ++ research_results

/-- Constant part of the analysis task description before the embedded
query (source lines 298-341, f-string). -/
def analysisTaskPart1 : String :=
  "\n        Perform comprehensive multi-dimensional analysis on: \""

/-- Constant tail of the analysis task description, following the embedded
query and research context (source lines 298-341, f-string). -/
def analysisTaskPart2 : String :=
  "\n\n        Provide thorough analysis organized in these exact sections:\n\n        1. QUANTITATIVE INSIGHTS:\n        - Statistical analysis of numerical data\n        - Trend identification and pattern recognition\n        - Comparative analysis and benchmarking\n        - Growth rates, percentages, and key metrics\n\n        2. QUALITATIVE ANALYSIS:\n        - Strategic implications and significance\n        - Opportunities and potential benefits\n        - Challenges and obstacles identified\n        - Quality factors and subjective assessments\n\n        3. RISK ASSESSMENT:\n        - Potential risks and uncertainties\n        - Probability and impact evaluation\n        - Mitigation strategies and safeguards\n        - Contingency considerations\n\n        4. PREDICTIVE ANALYSIS:\n        - Future trends and forecasting\n        - Scenario planning and projections\n        - Expected outcomes and timelines\n        - Leading indicators to monitor\n\n        5. STRATEGIC RECOMMENDATIONS:\n        - Top 3-5 actionable recommendations\n        - Priority ranking and implementation sequence\n        - Resource requirements and success metrics\n        - Expected ROI and impact assessment\n\n        Use clear section headers and bullet points for professional document formatting.\n        "

/-- Embedding of `create_analysis_task` (source lines 298-341): the task
description with the query and the stage-1 research text interpolated. -/
def create_analysis_task_description (user_query research_results : String) : String :=
  analysisTaskPart1 ++ user_query ++ "\"" ++ analysisResearchContext research_results
    ++ analysisTaskPart2

/-- Constant part of the orchestration task description before the embedded
query (source lines 343-393, f-string). -/
def orchestrationTaskPart1 : String :=
  "\n        Create an executive-level synthesis report for: \""

/-- Constant part of the orchestration task description between the query
and the embedded research data (source lines 343-393, f-string). -/
def orchestrationTaskPart2 : String :=
  "\"\n\n        Synthesize and coordinate the following information:\n\n        RESEARCH DATA:\n        "

/-- Constant part of the orchestration task description between the
research data and the embedded analysis data (source lines 343-393). -/
def orchestrationTaskPart3 : String :=
  "\n\n        ANALYSIS DATA:\n        "

/-- Constant tail of the orchestration task description, following the
embedded analysis data (source lines 343-393, f-string). -/
def orchestrationTaskPart4 : String :=
  "\n\n        Create a comprehensive executive report with these EXACT sections:\n\n        1. EXECUTIVE SUMMARY:\n        - 3-4 key sentences summarizing the entire analysis\n        - Most critical insights and conclusions\n        - Primary recommendation or course of action\n\n        2. KEY FINDINGS:\n        - Top 5 most important discoveries from research and analysis\n        - Critical facts that drive decision-making\n        - Validated insights with supporting evidence\n\n        3. STRATEGIC RECOMMENDATIONS:\n        - Top 3 priority actions ranked by importance\n        - Clear implementation steps for each recommendation\n        - Expected outcomes and success measures\n\n        4. IMPLEMENTATION ROADMAP:\n        - Specific next steps with timelines\n        - Resource requirements and responsibilities\n        - Milestones and checkpoints\n        - Dependencies and prerequisites\n\n        5. RISK CONSIDERATIONS:\n        - Major risks and potential obstacles\n        - Impact assessment and probability\n        - Mitigation strategies and contingency plans\n\n        6. CONCLUSION:\n        - Final strategic assessment and outlook\n        - Success factors and critical requirements\n        - Long-term implications and considerations\n\n        Ensure professional formatting with clear headers, bullet points, and executive-level language.\n        "

/-- Embedding of `create_orchestration_task` (source lines 343-393): the
task description with the query, the stage-1 research text and the stage-2
analysis text interpolated. -/
def create_orchestration_task_description
    (user_query research_data analysis_data : String) : String :=
  orchestrationTaskPart1 ++ user_query ++ orchestrationTaskPart2 ++ research_data
    ++ orchestrationTaskPart3 ++ analysis_data ++ orchestrationTaskPart4

/-- One content block of the generated Word document, at the granularity of
the `MultiAgentDocumentFormatter` method calls made by `create_docx_bytes`
(source lines 524-594): the header (`add_header`), the optional executive
summary box (`add_executive_summary_box`), and the four content sections
(`add_section`, with its `is_main_section` flag). -/
inductive DocBlock where
  | header (title query timestamp : String)
  | execSummaryBox (summary : String)
  | sectionBlock (heading content : String) (is_main_section : Bool)
deriving DecidableEq

/-- True exactly on executive-summary-box blocks. -/
def isExecSummaryBox : DocBlock → Bool
  | DocBlock.execSummaryBox _ => true
  | _ => false

/-- Embedding of the executive-summary extraction in `create_docx_bytes`
(source lines 541-556).  Python `str.upper` is modelled character-wise by
`String.toUpper`.  Returns the text passed to `add_executive_summary_box`,
or `none` when no box is added: when the (case-insensitively searched)
text "EXECUTIVE SUMMARY" does not occur, or when no line of the
500-character window survives the filter.  The source adds no summary box
at all in those cases; the `except` fallback on line 556 only guards
against a raised exception, which the pure extraction code cannot
produce. -/
def extractExecutiveSummary (final_report : String) : Option String :=
  if strContains (pyUpper final_report) "EXECUTIVE SUMMARY" then
    match findSubstrIdx "EXECUTIVE SUMMARY".data (pyUpper final_report).data with
    | none => none
    | some summary_start =>
      let summary_content : String :=
        String.mk ((final_report.data.drop summary_start).take 500)
      let lines := pySplitChar '\n' summary_content
      let clean_summary := ((lines.drop 1).take 5).filterMap (fun line =>
        if pyStrip line ≠ "" ∧
            ¬ (pyStartsWith (pyUpper line) "KEY FINDINGS" ∨ pyStartsWith (pyUpper line) "STRATEGIC")
        then some (pyStrip line) else none)
      if clean_summary ≠ [] then some (pyJoin " " clean_summary)
      else none
  else none

/-- The system-metadata footer text of the document (source lines
568-575), with the run timestamp interpolated. -/
def systemInfo (timestamp : String) : String :=
  "Analysis Framework: Hybrid Multi-Agent Intelligence System\nResearch Agent: Senior Research Specialist with domain expertise\nAnalysis Agent: Senior Data Analyst and Strategic Advisor\nOrchestrator Agent: Chief Synthesis Expert and Executive Advisor\nLLM Technology: Groq Llama-3.1-8B-Instant\nProcessing Method: Sequential multi-phase analysis with rate limiting\nDocument Generated: "
    ++ timestamp ++ "\nTotal Processing Time: ~3-4 minutes including safety delays"

/-- The sanitised query fragment used in the generated filename (source
lines 580-581): keep the alphanumeric, space, dash and underscore
characters of the first 30 characters, strip, then replace spaces with
underscores. -/
def safeQueryName (query : String) : String :=
  String.mk ((pyStripList ((query.data.take 30).filter
      (fun c => c.isAlphanum || c = ' ' || c = '-' || c = '_'))).map
    (fun c => if c = ' ' then '_' else c))

/-- The results record compiled by the pipeline (source lines 479-485):
the query, the run timestamp, and the three stage outputs.  The
`docx_bytes` field models the key of the same name that the DOCX phase may
add to the dict (source line 494); it is `none` until then. -/
structure AnalysisResults where
  query : String
  timestamp : String
  research : String
  analysis : String
  final_report : String
  docx_bytes : Option (List DocBlock × String)
deriving DecidableEq

/-- Embedding of `create_docx_bytes` (source lines 524-594): the sequence
of formatter calls (header, optional executive summary box, three main
sections, metadata footer) and the timestamped filename.  `now_str` stands
for the `datetime.now().strftime` value of source line 582; it is a
parameter so that the dependence of the output on the clock is explicit. -/
def create_docx_bytes (results : AnalysisResults) (now_str : String) :
    List DocBlock × String :=
  let blocks : List DocBlock :=
    [DocBlock.header "MULTI-AGENT INTELLIGENCE ANALYSIS REPORT"
        results.query results.timestamp]
    ++ (match extractExecutiveSummary results.final_report with
        | some s => [DocBlock.execSummaryBox s]
        | none => [])
    ++ [DocBlock.sectionBlock "🔍 RESEARCH FINDINGS & INTELLIGENCE" results.research true,
        DocBlock.sectionBlock "📊 COMPREHENSIVE ANALYSIS & INSIGHTS" results.analysis true,
        DocBlock.sectionBlock "🎯 EXECUTIVE SYNTHESIS & RECOMMENDATIONS" results.final_report true,
        DocBlock.sectionBlock "ℹ️ SYSTEM METADATA" (systemInfo results.timestamp) false]
  (blocks, "Multi_Agent_Analysis_" ++ safeQueryName results.query ++ "_" ++ now_str ++ ".docx")

/-- Outcome of one pipeline run (source lines 396-521): `ok` carries the
compiled results dict, `err` models the error dicts returned by the
exception handler, with the `error` tag ("rate_limit" or "system") and the
`message` text. -/
inductive RunResults where
  | ok (results : AnalysisResults)
  | err (error : String) (message : String)
deriving DecidableEq

/-- The error dict built by the exception handler of the pipeline (source
lines 502-521): the exception text is lowercased, and the tag is
"rate_limit" when that lowercased text contains "rate_limit" or "429",
otherwise "system"; the message is the original exception text. -/
def pipeline_error_result (e : String) : RunResults :=
  let error_msg := pyLower e
  if strContains error_msg "rate_limit" || strContains error_msg "429" then
    RunResults.err "rate_limit" e
  else
    RunResults.err "system" e

/-- What one call of `run_hybrid_multi_agent_analysis_with_docx` returns,
together with the trace of LLM stage calls it attempted (stage, prompt),
in order.  The trace is instrumentation for the call-count properties of
the spec; the source returns the pair (results, docx_bytes). -/
structure RunReturn where
  results : RunResults
  docx_bytes : Option (List DocBlock × String)
  calls : List (Stage × String)
deriving DecidableEq

/-- The results dict compiled after the three successful stages (source
lines 479-485). -/
def compiled_results
    (user_query timestamp research_results analysis_results final_results : String) :
    AnalysisResults :=
  { query := user_query
    timestamp := timestamp
    research := research_results
    analysis := analysis_results
    final_report := final_results
    docx_bytes := none }

/-- The DOCX export phase of the pipeline (source lines 487-499):
when export is enabled the pipeline calls `create_docx_bytes` — abstracted
as the oracle `docGen`, whose `Except.error` models the raised exception
caught on source line 496 — and on success stores the result under the
`docx_bytes` key of the results dict; on failure the dict is left
unchanged and the run continues. -/
def docx_export_phase
    (docGen : AnalysisResults → Except String (List DocBlock × String))
    (export_to_docx : Bool) (results : AnalysisResults) :
    AnalysisResults × Option (List DocBlock × String) :=
  if export_to_docx then
    match docGen results with
    | Except.ok pair => ({ results with docx_bytes := some pair }, some pair)
    | Except.error _ => (results, none)
  else (results, none)

/-- Embedding of `run_hybrid_multi_agent_analysis_with_docx` (source lines
396-521).  `llm` abstracts the `Crew.kickoff` call of each phase: it
receives the stage and the task description and returns either the
stage output text or a raised exception.  The three stages run strictly in
sequence, each later task description built from the earlier outputs; an
exception anywhere inside the `try` block reaches the handler of source
lines 502-521, so no later stage runs.  The `calls` field records which
stage calls were attempted, in order. -/
def run_hybrid_multi_agent_analysis_with_docx
    (llm : Stage → String → Except String String)
    (docGen : AnalysisResults → Except String (List DocBlock × String))
    (user_query timestamp : String) (export_to_docx : Bool) : RunReturn :=
  match llm Stage.research (create_research_task_description user_query) with
  | Except.error e =>
      { results := pipeline_error_result e
        docx_bytes := none
        calls := [(Stage.research, create_research_task_description user_query)] }
  | Except.ok research_results =>
      match llm Stage.analysis (create_analysis_task_description user_query research_results) with
      | Except.error e =>
          { results := pipeline_error_result e
            docx_bytes := none
            calls := [(Stage.research, create_research_task_description user_query),
                      (Stage.analysis, create_analysis_task_description user_query research_results)] }
      | Except.ok analysis_results =>
          match llm Stage.synthesis
              (create_orchestration_task_description user_query research_results analysis_results) with
          | Except.error e =>
              { results := pipeline_error_result e
                docx_bytes := none
                calls := [(Stage.research, create_research_task_description user_query),
                          (Stage.analysis, create_analysis_task_description user_query research_results),
                          (Stage.synthesis, create_orchestration_task_description user_query research_results analysis_results)] }
          | Except.ok final_results =>
              { results := RunResults.ok
                  (docx_export_phase docGen export_to_docx
                    (compiled_results user_query timestamp research_results analysis_results final_results)).1
                docx_bytes :=
                  (docx_export_phase docGen export_to_docx
                    (compiled_results user_query timestamp research_results analysis_results final_results)).2
                calls := [(Stage.research, create_research_task_description user_query),
                          (Stage.analysis, create_analysis_task_description user_query research_results),
                          (Stage.synthesis, create_orchestration_task_description user_query research_results analysis_results)] }

/-- The validation gate of `main` (source lines 626-632): the run button
is disabled unless the API key is non-empty and the stripped query is
non-empty, and the same two checks are repeated inside the handler; no
other validation (no length cap, no printable-character check) exists.
`none` models "no run started". -/
def main_submit
    (llm : Stage → String → Except String String)
    (docGen : AnalysisResults → Except String (List DocBlock × String))
    (api_key user_query timestamp : String) (export_docx : Bool) :
    Option RunReturn :=
  if api_key = "" ∨ pyStrip user_query = "" then none
  else if api_key = "" then none
  else if pyStrip user_query = "" then none
  else some (run_hybrid_multi_agent_analysis_with_docx llm docGen user_query timestamp export_docx)

/-- Number of LLM stage calls attempted by a possibly-rejected run. -/
def stageCallCount (o : Option RunReturn) : Nat :=
  match o with
  | none => 0
  | some r => r.calls.length

/-- Projection of a run outcome onto its ordered stage outputs, tagged
with the results-dict keys under which the pipeline stores them; `none`
for a failed run. -/
def stageOutputs : RunResults → Option (List (String × String))
  | RunResults.ok r =>
      some [("research", r.research), ("analysis", r.analysis), ("final_report", r.final_report)]
  | RunResults.err _ _ => none

/-- Modelled from the spec: the Report Renderer section of the spec says
that when no "EXECUTIVE SUMMARY" heading is found the renderer falls back
to using the first ~350 characters of the stage-3 output as the summary.
No such fallback exists in `create_docx_bytes`; this definition states the
claimed fallback so that the divergence can be exhibited. -/
def specExecutiveSummaryFallback (final_report : String) : String :=
  String.mk (final_report.data.take 350)

/-- An LLM oracle on which every stage call succeeds, returning a short
fixed text per stage. -/
def okLlm : Stage → String → Except String String
  | Stage.research, _ => Except.ok "R"
  | Stage.analysis, _ => Except.ok "A"
  | Stage.synthesis, _ => Except.ok "F"

/-- An LLM oracle whose research stage succeeds but returns text that
contains the literal substring "Error:". -/
def errTextLlm : Stage → String → Except String String
  | Stage.research, _ => Except.ok "Error: backend exploded"
  | Stage.analysis, _ => Except.ok "A"
  | Stage.synthesis, _ => Except.ok "F"

/-- An LLM oracle whose every call raises a rate-limit exception. -/
def rateLimitLlm : Stage → String → Except String String :=
  fun _ _ => Except.error "HTTP 429 Too Many Requests"

/-- A document generator oracle that always raises. -/
def noDocGen : AnalysisResults → Except String (List DocBlock × String) :=
  fun _ => Except.error "docx library failure"

/-- A document generator oracle behaving as the embedded
`create_docx_bytes` with a fixed clock value. -/
def okDocGen : AnalysisResults → Except String (List DocBlock × String) :=
  fun r => Except.ok (create_docx_bytes r "20250101_000000")

/-- A stage-3 output without any "EXECUTIVE SUMMARY" heading, for claim
C6. -/
def headingless_report : String :=
  "Quarterly trends overview. No heading present here."

/-- Run characterization: a research-stage exception ends the run after a
single stage call, with the error dict of the exception handler. -/
theorem run_research_error
    (llm : Stage → String → Except String String)
    (docGen : AnalysisResults → Except String (List DocBlock × String))
    (user_query timestamp : String) (export_to_docx : Bool) (e : String)
    (h1 : llm Stage.research (create_research_task_description user_query) = Except.error e) :
    run_hybrid_multi_agent_analysis_with_docx llm docGen user_query timestamp export_to_docx =
      { results := pipeline_error_result e
        docx_bytes := none
        calls := [(Stage.research, create_research_task_description user_query)] } := by
  simp only [run_hybrid_multi_agent_analysis_with_docx, h1]

/-- Run characterization: an analysis-stage exception ends the run after
two stage calls. -/
theorem run_analysis_error
    (llm : Stage → String → Except String String)
    (docGen : AnalysisResults → Except String (List DocBlock × String))
    (user_query timestamp : String) (export_to_docx : Bool) (r1 e : String)
    (h1 : llm Stage.research (create_research_task_description user_query) = Except.ok r1)
    (h2 : llm Stage.analysis (create_analysis_task_description user_query r1) = Except.error e) :
    run_hybrid_multi_agent_analysis_with_docx llm docGen user_query timestamp export_to_docx =
      { results := pipeline_error_result e
        docx_bytes := none
        calls := [(Stage.research, create_research_task_description user_query),
                  (Stage.analysis, create_analysis_task_description user_query r1)] } := by
  simp only [run_hybrid_multi_agent_analysis_with_docx, h1, h2]

/-- Run characterization: a synthesis-stage exception ends the run after
all three stage calls, with no later work. -/
theorem run_synthesis_error
    (llm : Stage → String → Except String String)
    (docGen : AnalysisResults → Except String (List DocBlock × String))
    (user_query timestamp : String) (export_to_docx : Bool) (r1 r2 e : String)
    (h1 : llm Stage.research (create_research_task_description user_query) = Except.ok r1)
    (h2 : llm Stage.analysis (create_analysis_task_description user_query r1) = Except.ok r2)
    (h3 : llm Stage.synthesis (create_orchestration_task_description user_query r1 r2) = Except.error e) :
    run_hybrid_multi_agent_analysis_with_docx llm docGen user_query timestamp export_to_docx =
      { results := pipeline_error_result e
        docx_bytes := none
        calls := [(Stage.research, create_research_task_description user_query),
                  (Stage.analysis, create_analysis_task_description user_query r1),
                  (Stage.synthesis, create_orchestration_task_description user_query r1 r2)] } := by
  simp only [run_hybrid_multi_agent_analysis_with_docx, h1, h2, h3]

/-- Run characterization: when all three stage calls return text, the run
compiles the results dict from the three outputs and hands it to the DOCX
phase. -/
theorem run_all_ok
    (llm : Stage → String → Except String String)
    (docGen : AnalysisResults → Except String (List DocBlock × String))
    (user_query timestamp : String) (export_to_docx : Bool) (r1 r2 r3 : String)
    (h1 : llm Stage.research (create_research_task_description user_query) = Except.ok r1)
    (h2 : llm Stage.analysis (create_analysis_task_description user_query r1) = Except.ok r2)
    (h3 : llm Stage.synthesis (create_orchestration_task_description user_query r1 r2) = Except.ok r3) :
    run_hybrid_multi_agent_analysis_with_docx llm docGen user_query timestamp export_to_docx =
      { results := RunResults.ok
          (docx_export_phase docGen export_to_docx
            (compiled_results user_query timestamp r1 r2 r3)).1
        docx_bytes :=
          (docx_export_phase docGen export_to_docx
            (compiled_results user_query timestamp r1 r2 r3)).2
        calls := [(Stage.research, create_research_task_description user_query),
                  (Stage.analysis, create_analysis_task_description user_query r1),
                  (Stage.synthesis, create_orchestration_task_description user_query r1 r2)] } := by
  simp only [run_hybrid_multi_agent_analysis_with_docx, h1, h2, h3]

/-- The DOCX phase never changes the content fields of the results dict;
at most it adds the docx pair under the `docx_bytes` key. -/
theorem docx_phase_fields
    (docGen : AnalysisResults → Except String (List DocBlock × String))
    (export_to_docx : Bool) (results : AnalysisResults) :
    ((docx_export_phase docGen export_to_docx results).1.query = results.query)
    ∧ ((docx_export_phase docGen export_to_docx results).1.timestamp = results.timestamp)
    ∧ ((docx_export_phase docGen export_to_docx results).1.research = results.research)
    ∧ ((docx_export_phase docGen export_to_docx results).1.analysis = results.analysis)
    ∧ ((docx_export_phase docGen export_to_docx results).1.final_report = results.final_report) := by
  unfold docx_export_phase
  cases export_to_docx with
  | false => simp
  | true =>
    cases hdg : docGen results with
    | error e => simp
    | ok pair => simp

/-- The stage outputs visible through `stageOutputs` are unaffected by the
DOCX phase. -/
theorem stageOutputs_docx_export_phase
    (docGen : AnalysisResults → Except String (List DocBlock × String))
    (export_to_docx : Bool) (results : AnalysisResults) :
    stageOutputs (RunResults.ok (docx_export_phase docGen export_to_docx results).1)
      = some [("research", results.research), ("analysis", results.analysis),
              ("final_report", results.final_report)] := by
  unfold docx_export_phase
  cases export_to_docx with
  | false => simp [stageOutputs]
  | true =>
    cases hdg : docGen results with
    | error e => simp [stageOutputs]
    | ok pair => simp [stageOutputs]

/-- The analysis task description embeds the stage-1 research text. -/
theorem research_text_infix_analysis_prompt (user_query research_results : String) :
    research_results.data <:+: (create_analysis_task_description user_query research_results).data := by
  unfold create_analysis_task_description analysisResearchContext
  by_cases h : research_results = ""
  · subst h
    exact List.nil_infix
  · rw [if_neg h]
    refine ⟨(analysisTaskPart1 ++ user_query ++ "\"" ++ "\n\nRESEARCH CONTEXT:\n").data,
            analysisTaskPart2.data, ?_⟩
    simp [String.data_append, List.append_assoc]

/-- The orchestration task description embeds the stage-1 research text. -/
theorem research_text_infix_orchestration_prompt
    (user_query research_data analysis_data : String) :
    research_data.data
      <:+: (create_orchestration_task_description user_query research_data analysis_data).data := by
  unfold create_orchestration_task_description
  refine ⟨(orchestrationTaskPart1 ++ user_query ++ orchestrationTaskPart2).data,
          (orchestrationTaskPart3 ++ analysis_data ++ orchestrationTaskPart4).data, ?_⟩
  simp [String.data_append, List.append_assoc]

/-- The orchestration task description embeds the stage-2 analysis text. -/
theorem analysis_text_infix_orchestration_prompt
    (user_query research_data analysis_data : String) :
    analysis_data.data
      <:+: (create_orchestration_task_description user_query research_data analysis_data).data := by
  unfold create_orchestration_task_description
  refine ⟨(orchestrationTaskPart1 ++ user_query ++ orchestrationTaskPart2 ++ research_data
            ++ orchestrationTaskPart3).data,
          orchestrationTaskPart4.data, ?_⟩
  simp [String.data_append, List.append_assoc]

/-- Claim C1: for every query for which all three stage calls succeed, the
pipeline run returns a result containing exactly three stage outputs
(research, analysis, final report) produced in the fixed order research
first, analysis second, synthesis third. -/
theorem pipeline_success_produces_three_stage_results
    (llm : Stage → String → Except String String)
    (docGen : AnalysisResults → Except String (List DocBlock × String))
    (user_query timestamp : String) (export_to_docx : Bool) (r1 r2 r3 : String)
    (h1 : llm Stage.research (create_research_task_description user_query) = Except.ok r1)
    (h2 : llm Stage.analysis (create_analysis_task_description user_query r1) = Except.ok r2)
    (h3 : llm Stage.synthesis (create_orchestration_task_description user_query r1 r2) = Except.ok r3) :
    (run_hybrid_multi_agent_analysis_with_docx llm docGen user_query timestamp export_to_docx).calls.map Prod.fst
      = [Stage.research, Stage.analysis, Stage.synthesis]
    ∧ stageOutputs
        (run_hybrid_multi_agent_analysis_with_docx llm docGen user_query timestamp export_to_docx).results
      = some [("research", r1), ("analysis", r2), ("final_report", r3)] := by
  rw [run_all_ok llm docGen user_query timestamp export_to_docx r1 r2 r3 h1 h2 h3]
  exact ⟨rfl,
    stageOutputs_docx_export_phase docGen export_to_docx
      (compiled_results user_query timestamp r1 r2 r3)⟩

/-- Witness for C1: on a concrete always-succeeding oracle the run makes
the three stage calls in order and returns the three outputs. -/
theorem pipeline_success_produces_three_stage_results_witness :
    (run_hybrid_multi_agent_analysis_with_docx okLlm noDocGen "AI trends" "2025-01-01 00:00:00" false).calls.map Prod.fst
      = [Stage.research, Stage.analysis, Stage.synthesis]
    ∧ stageOutputs
        (run_hybrid_multi_agent_analysis_with_docx okLlm noDocGen "AI trends" "2025-01-01 00:00:00" false).results
      = some [("research", "R"), ("analysis", "A"), ("final_report", "F")] :=
  pipeline_success_produces_three_stage_results okLlm noDocGen
    "AI trends" "2025-01-01 00:00:00" false "R" "A" "F" rfl rfl rfl

/-- Claim C2: for every run, the prompt given to stage 2 contains the
stage-1 output text as a substring, and the prompt given to stage 3
contains both the stage-1 and stage-2 output texts as substrings. -/
theorem stage_prompts_embed_prior_outputs
    (llm : Stage → String → Except String String)
    (docGen : AnalysisResults → Except String (List DocBlock × String))
    (user_query timestamp : String) (export_to_docx : Bool) :
    (∀ r1, llm Stage.research (create_research_task_description user_query) = Except.ok r1 →
      (run_hybrid_multi_agent_analysis_with_docx llm docGen user_query timestamp export_to_docx).calls.get? 1
          = some (Stage.analysis, create_analysis_task_description user_query r1)
        ∧ r1.data <:+: (create_analysis_task_description user_query r1).data)
    ∧ (∀ r1 r2, llm Stage.research (create_research_task_description user_query) = Except.ok r1 →
        llm Stage.analysis (create_analysis_task_description user_query r1) = Except.ok r2 →
      (run_hybrid_multi_agent_analysis_with_docx llm docGen user_query timestamp export_to_docx).calls.get? 2
          = some (Stage.synthesis, create_orchestration_task_description user_query r1 r2)
        ∧ r1.data <:+: (create_orchestration_task_description user_query r1 r2).data
        ∧ r2.data <:+: (create_orchestration_task_description user_query r1 r2).data) := by
  constructor
  · intro r1 h1
    refine ⟨?_, research_text_infix_analysis_prompt user_query r1⟩
    cases h2c : llm Stage.analysis (create_analysis_task_description user_query r1) with
    | error e =>
      rw [run_analysis_error llm docGen user_query timestamp export_to_docx r1 e h1 h2c]
      rfl
    | ok r2 =>
      cases h3c : llm Stage.synthesis (create_orchestration_task_description user_query r1 r2) with
      | error e =>
        rw [run_synthesis_error llm docGen user_query timestamp export_to_docx r1 r2 e h1 h2c h3c]
        rfl
      | ok r3 =>
        rw [run_all_ok llm docGen user_query timestamp export_to_docx r1 r2 r3 h1 h2c h3c]
        rfl
  · intro r1 r2 h1 h2
    refine ⟨?_, research_text_infix_orchestration_prompt user_query r1 r2,
            analysis_text_infix_orchestration_prompt user_query r1 r2⟩
    cases h3c : llm Stage.synthesis (create_orchestration_task_description user_query r1 r2) with
    | error e =>
      rw [run_synthesis_error llm docGen user_query timestamp export_to_docx r1 r2 e h1 h2 h3c]
      rfl
    | ok r3 =>
      rw [run_all_ok llm docGen user_query timestamp export_to_docx r1 r2 r3 h1 h2 h3c]
      rfl

/-- Witness for C2: on the concrete always-succeeding oracle, the stage-2
prompt embeds the stage-1 output and the stage-3 prompt embeds both prior
outputs. -/
theorem stage_prompts_embed_prior_outputs_witness :
    ((run_hybrid_multi_agent_analysis_with_docx okLlm noDocGen "AI trends" "2025-01-01 00:00:00" false).calls.get? 1
        = some (Stage.analysis, create_analysis_task_description "AI trends" "R")
      ∧ ("R" : String).data <:+: (create_analysis_task_description "AI trends" "R").data)
    ∧ ((run_hybrid_multi_agent_analysis_with_docx okLlm noDocGen "AI trends" "2025-01-01 00:00:00" false).calls.get? 2
        = some (Stage.synthesis, create_orchestration_task_description "AI trends" "R" "A")
      ∧ ("R" : String).data <:+: (create_orchestration_task_description "AI trends" "R" "A").data
      ∧ ("A" : String).data <:+: (create_orchestration_task_description "AI trends" "R" "A").data) :=
  ⟨(stage_prompts_embed_prior_outputs okLlm noDocGen "AI trends" "2025-01-01 00:00:00" false).1
      "R" rfl,
   (stage_prompts_embed_prior_outputs okLlm noDocGen "AI trends" "2025-01-01 00:00:00" false).2
      "R" "A" rfl rfl⟩

/-- Claim C3 counterexample: the source validates only that the API key
and the stripped query are non-empty.  A query containing the
non-printable character U+0007, and likewise a query of 2001 characters,
is accepted and all three stage calls are attempted, where the claim
demands zero. -/
theorem query_validation_counterexample :
    isPrintableChar (Char.ofNat 7) = false
    ∧ (Char.ofNat 7) ∈ ("AI trends \x07" : String).data
    ∧ stageCallCount
        (main_submit okLlm noDocGen "gsk_demo_key" "AI trends \x07" "2025-01-01 00:00:00" false) = 3 := by
  exact ⟨rfl, by decide, by decide⟩

/-- Claim C3 as amended: the only validation in `main` is that the API key
is non-empty and the stripped query is non-empty; a run attempt failing
either check makes zero stage calls (there is no length cap and no
printable-character check). -/
theorem blank_query_rejected_before_any_call
    (llm : Stage → String → Except String String)
    (docGen : AnalysisResults → Except String (List DocBlock × String))
    (api_key user_query timestamp : String) (export_docx : Bool)
    (h : api_key = "" ∨ pyStrip user_query = "") :
    stageCallCount (main_submit llm docGen api_key user_query timestamp export_docx) = 0 := by
  unfold main_submit stageCallCount
  rw [if_pos h]

/-- Witness for the amended C3: a whitespace-only query is rejected with
zero stage calls. -/
theorem blank_query_rejected_before_any_call_witness :
    stageCallCount (main_submit okLlm noDocGen "gsk_demo_key" "   " "2025-01-01 00:00:00" false) = 0 :=
  blank_query_rejected_before_any_call okLlm noDocGen "gsk_demo_key" "   " "2025-01-01 00:00:00" false
    (Or.inr (by decide))

/-- Claim C4 counterexample: the source never inspects stage outputs for
the substring "Error:".  On an oracle whose research stage returns text
containing "Error:", both later stages are still invoked and the run
completes successfully, where the claim demands a halt after stage 1. -/
theorem error_substring_counterexample :
    strContains "Error: backend exploded" "Error:" = true
    ∧ (run_hybrid_multi_agent_analysis_with_docx errTextLlm noDocGen
        "AI trends" "2025-01-01 00:00:00" false).calls.map Prod.fst
      = [Stage.research, Stage.analysis, Stage.synthesis]
    ∧ stageOutputs
        (run_hybrid_multi_agent_analysis_with_docx errTextLlm noDocGen
          "AI trends" "2025-01-01 00:00:00" false).results
      = some [("research", "Error: backend exploded"), ("analysis", "A"), ("final_report", "F")] := by
  exact ⟨by decide, rfl, rfl⟩

/-- Claim C4 as amended: a stage output containing the literal substring
"Error:" is not treated as a failure; the pipeline halts only when a stage
call raises an exception.  When stage 1 returns text containing "Error:"
and the later calls return normally, stages 2 and 3 are still invoked and
the run completes carrying that text. -/
theorem error_substring_does_not_halt_pipeline
    (llm : Stage → String → Except String String)
    (docGen : AnalysisResults → Except String (List DocBlock × String))
    (user_query timestamp : String) (export_to_docx : Bool) (r1 r2 r3 : String)
    (hErr : strContains r1 "Error:" = true)
    (h1 : llm Stage.research (create_research_task_description user_query) = Except.ok r1)
    (h2 : llm Stage.analysis (create_analysis_task_description user_query r1) = Except.ok r2)
    (h3 : llm Stage.synthesis (create_orchestration_task_description user_query r1 r2) = Except.ok r3) :
    (run_hybrid_multi_agent_analysis_with_docx llm docGen user_query timestamp export_to_docx).calls.map Prod.fst
      = [Stage.research, Stage.analysis, Stage.synthesis]
    ∧ stageOutputs
        (run_hybrid_multi_agent_analysis_with_docx llm docGen user_query timestamp export_to_docx).results
      = some [("research", r1), ("analysis", r2), ("final_report", r3)] := by
  rw [run_all_ok llm docGen user_query timestamp export_to_docx r1 r2 r3 h1 h2 h3]
  exact ⟨rfl,
    stageOutputs_docx_export_phase docGen export_to_docx
      (compiled_results user_query timestamp r1 r2 r3)⟩

/-- Witness for the amended C4: the concrete oracle returning "Error:"
text at stage 1 still has all three stages invoked. -/
theorem error_substring_does_not_halt_pipeline_witness :
    (run_hybrid_multi_agent_analysis_with_docx errTextLlm noDocGen
        "AI trends" "2025-01-01 00:00:00" false).calls.map Prod.fst
      = [Stage.research, Stage.analysis, Stage.synthesis]
    ∧ stageOutputs
        (run_hybrid_multi_agent_analysis_with_docx errTextLlm noDocGen
          "AI trends" "2025-01-01 00:00:00" false).results
      = some [("research", "Error: backend exploded"), ("analysis", "A"), ("final_report", "F")] :=
  error_substring_does_not_halt_pipeline errTextLlm noDocGen
    "AI trends" "2025-01-01 00:00:00" false
    "Error: backend exploded" "A" "F" (by decide) rfl rfl rfl

/-- Claim C5 counterexample: all three agents are built on the single
`get_groq_llm` configuration, so every stage has the same max-token budget
1000; the budgets are not strictly increasing. -/
theorem max_token_budgets_counterexample :
    (create_agents "gsk_demo_key").1.llm.max_tokens = 1000
    ∧ (create_agents "gsk_demo_key").2.1.llm.max_tokens = 1000
    ∧ (create_agents "gsk_demo_key").2.2.llm.max_tokens = 1000
    ∧ ¬ ((create_agents "gsk_demo_key").1.llm.max_tokens
          < (create_agents "gsk_demo_key").2.1.llm.max_tokens
        ∧ (create_agents "gsk_demo_key").2.1.llm.max_tokens
          < (create_agents "gsk_demo_key").2.2.llm.max_tokens) := by
  exact ⟨rfl, rfl, rfl, by decide⟩

/-- Claim C5 as amended: the three stages share one LLM configuration —
for every API key, the research, analysis and orchestrator agents all
carry exactly `get_groq_llm api_key`, whose max-token budget is the
constant 1000; the three budgets are therefore equal, not increasing. -/
theorem all_stages_share_same_llm_budget (api_key : String) :
    (create_agents api_key).1.llm = get_groq_llm api_key
    ∧ (create_agents api_key).2.1.llm = get_groq_llm api_key
    ∧ (create_agents api_key).2.2.llm = get_groq_llm api_key
    ∧ (get_groq_llm api_key).max_tokens = 1000 :=
  ⟨rfl, rfl, rfl, rfl⟩

/-- Claim C6 counterexample: when the stage-3 output has no "EXECUTIVE
SUMMARY" text, `create_docx_bytes` simply adds no executive-summary box —
it does not fall back to the first 350 characters, which here would be the
whole (non-empty) report.  Moreover, when a heading is present the code
takes up to 5 following lines, possibly fewer than the claimed 3. -/
theorem executive_summary_fallback_counterexample :
    extractExecutiveSummary headingless_report = none
    ∧ ((create_docx_bytes
          { query := "q", timestamp := "t", research := "r", analysis := "a",
            final_report := headingless_report, docx_bytes := none }
          "20250101_000000").1.filter isExecSummaryBox) = []
    ∧ specExecutiveSummaryFallback headingless_report = headingless_report
    ∧ headingless_report ≠ ""
    ∧ extractExecutiveSummary "EXECUTIVE SUMMARY:\nOnly one line follows."
        = some "Only one line follows." := by
  exact ⟨by decide, by decide, by decide, by decide, by decide⟩

/-- Claim C6 as amended: document rendering searches the stage-3 output
case-insensitively for the text "EXECUTIVE SUMMARY" and, when found, takes
up to the 5 lines following it inside a 500-character window (dropping
blank lines and lines starting with "KEY FINDINGS" or "STRATEGIC") as the
summary; when the text is not found, no executive-summary box is added —
there is no fallback to the first 350 characters. -/
theorem executive_summary_box_requires_heading (final_report : String) :
    (strContains (pyUpper final_report) "EXECUTIVE SUMMARY" = false →
      extractExecutiveSummary final_report = none)
    ∧ (∀ s, extractExecutiveSummary final_report = some s →
      strContains (pyUpper final_report) "EXECUTIVE SUMMARY" = true) := by
  constructor
  · intro h
    unfold extractExecutiveSummary
    rw [h]
    rfl
  · intro s hs
    by_contra hc
    rw [Bool.not_eq_true] at hc
    unfold extractExecutiveSummary at hs
    rw [hc] at hs
    simp at hs

/-- Witness for the amended C6: a concrete heading-less report yields no
executive-summary box. -/
theorem executive_summary_box_requires_heading_witness :
    extractExecutiveSummary headingless_report = none :=
  (executive_summary_box_requires_heading headingless_report).1 (by decide)

/-- Claim C7: rendering is deterministic in the run record and the clock —
two renderings of run records that agree on the query, timestamp and the
three stage outputs (even if they differ in the stored `docx_bytes` key),
with the filename timestamp held constant, yield identical output. -/
theorem render_depends_only_on_content_fields
    (results1 results2 : AnalysisResults) (now_str : String)
    (hq : results1.query = results2.query)
    (ht : results1.timestamp = results2.timestamp)
    (hr : results1.research = results2.research)
    (ha : results1.analysis = results2.analysis)
    (hf : results1.final_report = results2.final_report) :
    create_docx_bytes results1 now_str = create_docx_bytes results2 now_str := by
  simp only [create_docx_bytes, hq, ht, hr, ha, hf]

/-- Witness for C7: two renderings of the same completed run, before and
after the `docx_bytes` key was stored, are identical. -/
theorem render_depends_only_on_content_fields_witness :
    create_docx_bytes
        { query := "q", timestamp := "t", research := "r", analysis := "a",
          final_report := "f", docx_bytes := none } "20250101_000000"
      = create_docx_bytes
          { query := "q", timestamp := "t", research := "r", analysis := "a",
            final_report := "f", docx_bytes := some ([], "other.docx") } "20250101_000000" :=
  render_depends_only_on_content_fields
    { query := "q", timestamp := "t", research := "r", analysis := "a",
      final_report := "f", docx_bytes := none }
    { query := "q", timestamp := "t", research := "r", analysis := "a",
      final_report := "f", docx_bytes := some ([], "other.docx") }
    "20250101_000000" rfl rfl rfl rfl rfl

/-- Claim C8: the rendering phase is a read-only projection of the run
record — after the DOCX phase the query, timestamp and three stage
outputs of the results dict are identical to their values before it (at
most the separate `docx_bytes` key is added). -/
theorem rendering_preserves_run_record
    (docGen : AnalysisResults → Except String (List DocBlock × String))
    (export_to_docx : Bool) (results : AnalysisResults) :
    ((docx_export_phase docGen export_to_docx results).1.query = results.query)
    ∧ ((docx_export_phase docGen export_to_docx results).1.timestamp = results.timestamp)
    ∧ ((docx_export_phase docGen export_to_docx results).1.research = results.research)
    ∧ ((docx_export_phase docGen export_to_docx results).1.analysis = results.analysis)
    ∧ ((docx_export_phase docGen export_to_docx results).1.final_report = results.final_report) :=
  docx_phase_fields docGen export_to_docx results

/-- Claim C9: a stage exception halts the pipeline — the stage calls
attempted stop at the raising stage — and the run returns the terminal
error dict carrying the exception text, tagged "rate_limit" exactly when
the lowercased text contains "rate_limit" or "429" and "system"
otherwise. -/
theorem stage_exception_halts_and_tags_failure
    (llm : Stage → String → Except String String)
    (docGen : AnalysisResults → Except String (List DocBlock × String))
    (user_query timestamp : String) (export_to_docx : Bool) :
    (∀ e, llm Stage.research (create_research_task_description user_query) = Except.error e →
      (run_hybrid_multi_agent_analysis_with_docx llm docGen user_query timestamp export_to_docx).calls.map Prod.fst
          = [Stage.research]
        ∧ (run_hybrid_multi_agent_analysis_with_docx llm docGen user_query timestamp export_to_docx).results
          = pipeline_error_result e)
    ∧ (∀ r1 e, llm Stage.research (create_research_task_description user_query) = Except.ok r1 →
        llm Stage.analysis (create_analysis_task_description user_query r1) = Except.error e →
      (run_hybrid_multi_agent_analysis_with_docx llm docGen user_query timestamp export_to_docx).calls.map Prod.fst
          = [Stage.research, Stage.analysis]
        ∧ (run_hybrid_multi_agent_analysis_with_docx llm docGen user_query timestamp export_to_docx).results
          = pipeline_error_result e)
    ∧ (∀ r1 r2 e, llm Stage.research (create_research_task_description user_query) = Except.ok r1 →
        llm Stage.analysis (create_analysis_task_description user_query r1) = Except.ok r2 →
        llm Stage.synthesis (create_orchestration_task_description user_query r1 r2) = Except.error e →
      (run_hybrid_multi_agent_analysis_with_docx llm docGen user_query timestamp export_to_docx).calls.map Prod.fst
          = [Stage.research, Stage.analysis, Stage.synthesis]
        ∧ (run_hybrid_multi_agent_analysis_with_docx llm docGen user_query timestamp export_to_docx).results
          = pipeline_error_result e)
    ∧ (∀ e, pipeline_error_result e = RunResults.err "rate_limit" e
        ↔ (strContains (pyLower e) "rate_limit" = true ∨ strContains (pyLower e) "429" = true))
    ∧ (∀ e, pipeline_error_result e = RunResults.err "rate_limit" e
        ∨ pipeline_error_result e = RunResults.err "system" e) := by
  refine ⟨?_, ?_, ?_, ?_, ?_⟩
  · intro e h1
    rw [run_research_error llm docGen user_query timestamp export_to_docx e h1]
    exact ⟨rfl, rfl⟩
  · intro r1 e h1 h2
    rw [run_analysis_error llm docGen user_query timestamp export_to_docx r1 e h1 h2]
    exact ⟨rfl, rfl⟩
  · intro r1 r2 e h1 h2 h3
    rw [run_synthesis_error llm docGen user_query timestamp export_to_docx r1 r2 e h1 h2 h3]
    exact ⟨rfl, rfl⟩
  · intro e
    cases hb : (strContains (pyLower e) "rate_limit" || strContains (pyLower e) "429") with
    | true =>
      simp only [pipeline_error_result, hb]
      simp at hb
      simpa using hb
    | false =>
      simp only [pipeline_error_result, hb]
      simp at hb
      constructor
      · intro hcontra
        simp at hcontra
      · intro hor
        rcases hor with h | h
        · rw [h] at hb
          exact absurd hb.1 (by simp)
        · rw [h] at hb
          exact absurd hb.2 (by simp)
  · intro e
    cases hb : (strContains (pyLower e) "rate_limit" || strContains (pyLower e) "429") with
    | true =>
      simp only [pipeline_error_result, hb]
      exact Or.inl rfl
    | false =>
      simp only [pipeline_error_result, hb]
      exact Or.inr rfl

/-- Witness for C9: on an oracle raising "HTTP 429 Too Many Requests" at
stage 1, the run stops after one call and is tagged as a rate-limit
failure carrying the message. -/
theorem stage_exception_halts_and_tags_failure_witness :
    (run_hybrid_multi_agent_analysis_with_docx rateLimitLlm noDocGen
        "AI trends" "2025-01-01 00:00:00" true).calls.map Prod.fst = [Stage.research]
    ∧ (run_hybrid_multi_agent_analysis_with_docx rateLimitLlm noDocGen
        "AI trends" "2025-01-01 00:00:00" true).results
      = RunResults.err "rate_limit" "HTTP 429 Too Many Requests" := by
  have h := (stage_exception_halts_and_tags_failure rateLimitLlm noDocGen
    "AI trends" "2025-01-01 00:00:00" true).1 "HTTP 429 Too Many Requests" rfl
  refine ⟨h.1, ?_⟩
  rw [h.2]
  decide

/-- Claim C10: if all three stages succeed but the document generation
raises, the pipeline still returns the completed results — query,
timestamp and the three stage outputs unchanged — with no document bytes,
rather than an error result. -/
theorem docgen_failure_still_returns_results
    (llm : Stage → String → Except String String)
    (docGen : AnalysisResults → Except String (List DocBlock × String))
    (user_query timestamp : String) (r1 r2 r3 e : String)
    (h1 : llm Stage.research (create_research_task_description user_query) = Except.ok r1)
    (h2 : llm Stage.analysis (create_analysis_task_description user_query r1) = Except.ok r2)
    (h3 : llm Stage.synthesis (create_orchestration_task_description user_query r1 r2) = Except.ok r3)
    (hd : docGen (compiled_results user_query timestamp r1 r2 r3) = Except.error e) :
    (run_hybrid_multi_agent_analysis_with_docx llm docGen user_query timestamp true).results
      = RunResults.ok (compiled_results user_query timestamp r1 r2 r3)
    ∧ (run_hybrid_multi_agent_analysis_with_docx llm docGen user_query timestamp true).docx_bytes
      = none := by
  rw [run_all_ok llm docGen user_query timestamp true r1 r2 r3 h1 h2 h3]
  constructor
  · simp [docx_export_phase, hd]
  · simp [docx_export_phase, hd]

/-- Witness for C10: with an always-raising document generator, the run
still returns the three stage outputs and no document bytes. -/
theorem docgen_failure_still_returns_results_witness :
    (run_hybrid_multi_agent_analysis_with_docx okLlm noDocGen
        "AI trends" "2025-01-01 00:00:00" true).results
      = RunResults.ok (compiled_results "AI trends" "2025-01-01 00:00:00" "R" "A" "F")
    ∧ (run_hybrid_multi_agent_analysis_with_docx okLlm noDocGen
        "AI trends" "2025-01-01 00:00:00" true).docx_bytes = none :=
  docgen_failure_still_returns_results okLlm noDocGen "AI trends" "2025-01-01 00:00:00"
    "R" "A" "F" "docx library failure" rfl rfl rfl rfl
